import Mathlib

/-!
Verification of the galactic-map scene code (src/main.js).

The embedding translates the scene subsystem of the source file:
entity records (data.js shape), mesh creation (createCelestialMesh,
createCelestialObjects), the visibility filter (updateVisibility), the
scale slider handler, the raycasting picker (onMouseClick, with the
ray-sphere test following the three.js Ray.intersectSphere routine that
intersectObjects ultimately calls; every geometry in this program is a
sphere), and the camera event handlers (mousedown/mouseup/mousemove/
wheel/toggle/reset and the per-frame auto-rotate step of animate).

Numbers: scene data and geometry are rational (JS number literals and
the arithmetic on them here stay exact); camera math uses real numbers
for sqrt, trigonometry and arccos, i.e. exact real arithmetic in place
of IEEE doubles.
-/

/-- A 3D vector with rational components. -/
structure V3 where
  x : ℚ
  y : ℚ
  z : ℚ
  deriving DecidableEq

def V3.add (a b : V3) : V3 := ⟨a.x + b.x, a.y + b.y, a.z + b.z⟩

def V3.sub (a b : V3) : V3 := ⟨a.x - b.x, a.y - b.y, a.z - b.z⟩

def V3.dot (a b : V3) : ℚ := a.x * b.x + a.y * b.y + a.z * b.z

/-- One catalog record of data.js, as read by main.js (fields name, type,
x, y, z, distance, constellation, sector). -/
structure Entity where
  name : String
  type : String
  x : ℚ
  y : ℚ
  z : ℚ
  distance : ℚ
  constellation : String
  sector : ℤ
  deriving DecidableEq

/-- A scene node (three.js Object3D/Mesh as used by main.js): the
userData stamp (none models the default empty userData object of nodes
never stamped, such as the glow child), the local position, the radius
of its SphereGeometry, the render-visibility flag, the material color,
and child nodes. -/
inductive Obj : Type where
  | mk (userData : Option Entity) (position : V3) (radius : ℚ)
       (visible : Bool) (color : ℕ) (children : List Obj)

def Obj.userData : Obj → Option Entity
  | .mk u _ _ _ _ _ => u

def Obj.position : Obj → V3
  | .mk _ p _ _ _ _ => p

def Obj.radius : Obj → ℚ
  | .mk _ _ r _ _ _ => r

def Obj.visible : Obj → Bool
  | .mk _ _ _ v _ _ => v

def Obj.color : Obj → ℕ
  | .mk _ _ _ _ c _ => c

def Obj.children : Obj → List Obj
  | .mk _ _ _ _ _ ch => ch

def Obj.withUserData : Obj → Option Entity → Obj
  | .mk _ p r v c ch, u => .mk u p r v c ch

def Obj.withVisible : Obj → Bool → Obj
  | .mk u p r _ c ch, b => .mk u p r b c ch

def Obj.withPosition : Obj → V3 → Obj
  | .mk u _ r v c ch, p => .mk u p r v c ch

/-- createCelestialMesh of main.js: switch on obj.type; the star branch
with distance 0 additionally attaches a glow child of twice the size;
unknown types return null. Sizes and colors are copied from the source. -/
def createCelestialMesh (obj : Entity) : Option Obj :=
  if obj.type = "star" then
    let size : ℚ := if obj.distance = 0 then 20 else 8 + obj.distance / 10
    let color : ℕ := if obj.distance = 0 then 0xffff00 else 0xff6600
    if obj.distance = 0 then
      let glow : Obj := .mk none ⟨0, 0, 0⟩ (size * 2) true 0xffaa00 []
      some (.mk none ⟨obj.x, obj.y, obj.z⟩ size true color [glow])
    else
      some (.mk none ⟨obj.x, obj.y, obj.z⟩ size true color [])
  else if obj.type = "planet" then
    some (.mk none ⟨obj.x, obj.y, obj.z⟩ (4 + obj.distance / 30) true 0x4488ff [])
  else if obj.type = "moon" then
    some (.mk none ⟨obj.x, obj.y, obj.z⟩ (2 + obj.distance / 50) true 0x888888 [])
  else if obj.type = "nebula" then
    some (.mk none ⟨obj.x, obj.y, obj.z⟩ (15 + obj.distance / 20) true 0xff00ff [])
  else
    none

/-- createCelestialObjects of main.js: for each catalog entity build a
mesh (if any), stamp the entity onto mesh.userData, and collect the
meshes in catalog order (the celestialMeshes array). -/
def createCelestialObjects (catalog : List Entity) : List Obj :=
  catalog.filterMap fun obj =>
    (createCelestialMesh obj).map fun m => m.withUserData (some obj)

/-- The filter-relevant part of the global controls object of main.js
(the rotation fields of the same object are carried in CameraState
below, where the camera handlers read them). -/
structure Controls where
  showStars : Bool
  showPlanets : Bool
  showMoons : Bool
  showNebulas : Bool
  sectors : List ℤ
  scale : ℚ
  deriving DecidableEq

/-- The switch of updateVisibility: which show-flag governs a given
entity type; types outside the four cases leave typeVisible false. -/
def typeVisibleOf (c : Controls) (t : String) : Bool :=
  if t = "star" then c.showStars
  else if t = "planet" then c.showPlanets
  else if t = "moon" then c.showMoons
  else if t = "nebula" then c.showNebulas
  else false

/-- Body of the updateVisibility loop for one mesh:
mesh.visible = typeVisible && controls.sectors.includes(obj.sector).
The none branch mirrors the JS semantics of an unstamped userData (no
switch case matches and includes(undefined) is false); every mesh in
celestialMeshes is in fact stamped. -/
def visUpdate (c : Controls) (m : Obj) : Obj :=
  match m.userData with
  | some e => m.withVisible (typeVisibleOf c e.type && c.sectors.contains e.sector)
  | none => m.withVisible false

/-- updateVisibility of main.js: the pass over celestialMeshes. -/
def updateVisibility (c : Controls) (meshes : List Obj) : List Obj :=
  meshes.map (visUpdate c)

/-- The enabled-type set in the words of the spec: the set of type tags
whose toggle is on. Used to compare the source filter against the
spec formulation (entity.type in typeEnabled). -/
def typeEnabled (c : Controls) : List String :=
  (if c.showStars then ["star"] else []) ++
  (if c.showPlanets then ["planet"] else []) ++
  (if c.showMoons then ["moon"] else []) ++
  (if c.showNebulas then ["nebula"] else [])

/-- Body of the scale-slider handler for one mesh:
mesh.position.set(obj.x * scale, obj.y * scale, obj.z * scale), always
from the stored unscaled entity coordinates. An unstamped mesh is left
as is (unreachable for celestialMeshes). -/
def scaleOne (s : ℚ) (m : Obj) : Obj :=
  match m.userData with
  | some e => m.withPosition ⟨e.x * s, e.y * s, e.z * s⟩
  | none => m

/-- The scale-slider handler of setupEventListeners: reposition every
mesh from its entity coordinates times the new scale factor. -/
def applyScale (s : ℚ) (meshes : List Obj) : List Obj :=
  meshes.map (scaleOne s)

/-- The four recognized entity types. -/
def knownType (t : String) : Prop :=
  t ∈ (["star", "planet", "moon", "nebula"] : List String)

instance (t : String) : Decidable (knownType t) := by
  unfold knownType; infer_instance

/-- The ray-sphere test of three.js (Ray.intersectSphere), which
Mesh.raycast performs against the sphere geometry: returns the distance
along the ray to the nearest nonnegative intersection, or none. The
visibility flag plays no part in this test (three.js raycasting does not
consult it). -/
noncomputable def raySphereHit (o d c : V3) (radius : ℚ) : Option ℝ :=
  let v := c.sub o
  let tca := v.dot d
  let d2 := v.dot v - tca * tca
  let radius2 := radius * radius
  if radius2 < d2 then none
  else
    let thc : ℝ := Real.sqrt ((radius2 - d2 : ℚ) : ℝ)
    let t0 : ℝ := (tca : ℝ) - thc
    let t1 : ℝ := (tca : ℝ) + thc
    if t1 < 0 then none
    else if t0 < 0 then some t1
    else some t0

mutual

/-- The recursive walk of Raycaster.intersectObjects (recursive is true
by default in three.js): test the node itself at its world position,
then every descendant; base accumulates the parent translations. -/
noncomputable def intersectWalk (o d base : V3) : Obj → List (ℝ × Obj)
  | .mk u p r v c ch =>
    (match raySphereHit o d (base.add p) r with
     | some t => [(t, Obj.mk u p r v c ch)]
     | none => []) ++ intersectWalkList o d (base.add p) ch

noncomputable def intersectWalkList (o d base : V3) : List Obj → List (ℝ × Obj)
  | [] => []
  | m :: rest => intersectWalk o d base m ++ intersectWalkList o d base rest

end

/-- Insertion step of the ascending sort by distance that
intersectObjects applies to the collected hits. -/
noncomputable def insertByDist (p : ℝ × Obj) : List (ℝ × Obj) → List (ℝ × Obj)
  | [] => [p]
  | q :: rest => if p.1 ≤ q.1 then p :: q :: rest else q :: insertByDist p rest

noncomputable def sortByDist (l : List (ℝ × Obj)) : List (ℝ × Obj) :=
  l.foldr insertByDist []

/-- raycaster.intersectObjects(celestialMeshes): all hits on the meshes
and their descendants, sorted by ascending distance from the ray
origin. The ray (o, d) stands for the camera ray built by
setFromCamera. -/
noncomputable def intersectObjects (o d : V3) (meshes : List Obj) : List (ℝ × Obj) :=
  sortByDist (intersectWalkList o d ⟨0, 0, 0⟩ meshes)

/-- onMouseClick of main.js: if any hit exists, read userData directly
off the nearest hit node (no climb of the parent chain) and display it;
otherwise do nothing. The outer none is the no-hit case; the inner
option is the userData carried by the hit node itself. -/
noncomputable def onMouseClick (o d : V3) (meshes : List Obj) : Option (Option Entity) :=
  match intersectObjects o d meshes with
  | [] => none
  | (_, m) :: _ => some m.userData

/-- Camera-relevant mutable state of main.js: camera position, the
camera world direction (set by lookAt, read by the wheel handler via
getWorldDirection), and the globals controls.autoRotate,
controls.rotationSpeed, rotationAngle, isDragging. -/
structure CameraState where
  camX : ℝ
  camY : ℝ
  camZ : ℝ
  dirX : ℝ
  dirY : ℝ
  dirZ : ℝ
  autoRotate : Bool
  rotationSpeed : ℝ
  rotationAngle : ℝ
  isDragging : Bool

/-- Squared distance of the camera from the origin, as the source
computes it (camera.position.x ** 2 + ... before the sqrt). -/
noncomputable def normSq (s : CameraState) : ℝ :=
  s.camX ^ 2 + s.camY ^ 2 + s.camZ ^ 2

/-- The radius recovered in the drag and auto-rotate handlers. -/
noncomputable def radius (s : CameraState) : ℝ :=
  Real.sqrt (normSq s)

/-- camera.lookAt(0, 0, 0): the world direction becomes the unit vector
from the camera toward the origin; position is untouched. -/
noncomputable def lookAtOrigin (s : CameraState) : CameraState :=
  { s with
    dirX := -s.camX / radius s
    dirY := -s.camY / radius s
    dirZ := -s.camZ / radius s }

/-- Math.atan2 via the complex argument. -/
noncomputable def atan2 (y x : ℝ) : ℝ :=
  Complex.arg ((x : ℂ) + (y : ℂ) * Complex.I)

/-- The input events handled by setupEventListeners plus the per-frame
tick of animate, with the payloads the handlers read. -/
inductive UIEvent : Type where
  | mousedown
  | mouseup
  | mousemove (dx dy : ℝ)
  | wheel (deltaY : ℝ)
  | toggleRotation
  | setRotationSpeed (v : ℝ)
  | resetView
  | frame

/-- The event handlers of main.js, one transition per event:
mousedown starts a drag and switches auto-rotation off; mousemove while
dragging recomputes the camera on the sphere of the current radius from
the adjusted azimuth and polar angle, then looks at the origin; wheel
moves the camera 50 units along its current world direction (toward the
view for scroll-in, backward otherwise) without re-aiming; resetView
restores the initial position; frame is the animate step, advancing
rotationAngle and repositioning only when autoRotate is on and no drag
is in progress. -/
noncomputable def applyEvent (s : CameraState) : UIEvent → CameraState
  | .mousedown => { s with isDragging := true, autoRotate := false }
  | .mouseup => { s with isDragging := false }
  | .mousemove dx dy =>
    if s.isDragging then
      let r := radius s
      let theta := atan2 s.camX s.camZ - dx * 0.005
      let phi := Real.arccos (s.camY / r) + dy * 0.005
      lookAtOrigin { s with
        camX := r * Real.sin phi * Real.sin theta
        camY := r * Real.cos phi
        camZ := r * Real.sin phi * Real.cos theta }
    else s
  | .wheel deltaY =>
    if deltaY < 0 then
      { s with
        camX := s.camX + s.dirX * 50
        camY := s.camY + s.dirY * 50
        camZ := s.camZ + s.dirZ * 50 }
    else
      { s with
        camX := s.camX - s.dirX * 50
        camY := s.camY - s.dirY * 50
        camZ := s.camZ - s.dirZ * 50 }
  | .toggleRotation => { s with autoRotate := !s.autoRotate }
  | .setRotationSpeed v => { s with rotationSpeed := v }
  | .resetView => lookAtOrigin { s with camX := 800, camY := 600, camZ := 800 }
  | .frame =>
    if s.autoRotate && !s.isDragging then
      let angle := s.rotationAngle + 0.001 * s.rotationSpeed
      let r := radius s
      let phi := Real.arccos (s.camY / r)
      lookAtOrigin { s with
        rotationAngle := angle
        camX := r * Real.sin phi * Real.sin angle
        camZ := r * Real.sin phi * Real.cos angle }
    else s

/-- The state after init: camera.position.set(800, 600, 800) followed by
camera.lookAt(0, 0, 0), with the control defaults of main.js. -/
noncomputable def initState : CameraState :=
  lookAtOrigin
    { camX := 800, camY := 600, camZ := 800
      dirX := 0, dirY := 0, dirZ := 0
      autoRotate := false, rotationSpeed := 1
      rotationAngle := 0, isDragging := false }

/-- Run a session: fold the event handlers over an input trace. -/
noncomputable def run (evs : List UIEvent) : CameraState :=
  evs.foldl applyEvent initState

/-- The initial camera distance from the origin,
sqrt(800 ^ 2 + 600 ^ 2 + 800 ^ 2). -/
noncomputable def r0 : ℝ := Real.sqrt 1640000

/-- Radius invariant: the squared camera distance is always the square
of the initial radius shifted by an integer number of 50-unit zoom
steps. Since r0 is not an integer multiple of 50, this keeps the camera
off the origin. -/
def RadiusInv (s : CameraState) : Prop :=
  ∃ k : ℤ, normSq s = (r0 + 50 * k) ^ 2

/-- Direction invariant: the stored world direction is the unit vector
toward the origin, up to sign (the sign flips when an unclamped zoom
step crosses the origin line). Stated multiplicatively to avoid
division. -/
def DirInv (s : CameraState) : Prop :=
  ∃ e : ℝ, (e = 1 ∨ e = -1) ∧
    radius s * s.dirX = e * -s.camX ∧
    radius s * s.dirY = e * -s.camY ∧
    radius s * s.dirZ = e * -s.camZ

def CamInv (s : CameraState) : Prop := RadiusInv s ∧ DirInv s

/-- The Sol record of the spec scenario: a star at the origin with
distance 0 (the only shape that produces a glow child). -/
def solEnt : Entity :=
  { name := "Sol", type := "star", x := 0, y := 0, z := 0
    distance := 0, constellation := "Sistema Solar", sector := 0 }

/-- The Earth record of the spec scenario. -/
def earthEnt : Entity :=
  { name := "Earth", type := "planet", x := 150, y := 0, z := 0
    distance := 0, constellation := "Sistema Solar", sector := 1 }

/-- A planet at the origin, used to aim an axis-aligned pick ray at a
filtered-out handle. -/
def marsEnt : Entity :=
  { name := "Mars", type := "planet", x := 0, y := 0, z := 0
    distance := 0, constellation := "Sistema Solar", sector := 1 }

/-- A record with a type outside the four known kinds. -/
def asteroidEnt : Entity :=
  { name := "Ceres", type := "asteroid", x := 10, y := 20, z := 30
    distance := 5, constellation := "Cinturon", sector := 2 }

/-- A star with nonzero distance (size 8 + distance / 10). -/
def vegaEnt : Entity :=
  { name := "Vega", type := "star", x := 100, y := 50, z := 200
    distance := 10, constellation := "Lyra", sector := 3 }

/-- The glow child that createCelestialMesh attaches to the Sol mesh:
no userData stamp, local position at the parent center, radius 40. -/
def glowNode : Obj := .mk none ⟨0, 0, 0⟩ 40 true 0xffaa00 []

/-- The mesh createCelestialObjects produces for solEnt. -/
def sunNode : Obj := .mk (some solEnt) ⟨0, 0, 0⟩ 20 true 0xffff00 [glowNode]

/-- The mesh createCelestialObjects produces for marsEnt, after the
visibility filter below hides planets. -/
def hiddenMarsNode : Obj := .mk (some marsEnt) ⟨0, 0, 0⟩ 4 false 0x4488ff []

/-- A filter state with planets toggled off and every sector enabled. -/
def noPlanetControls : Controls :=
  { showStars := true, showPlanets := false, showMoons := true
    showNebulas := true, sectors := [1, 2, 3, 4, 5], scale := 1 }

/-- A filter state with stars on and sectors 0 and 1 enabled. -/
def starControls : Controls :=
  { showStars := true, showPlanets := false, showMoons := true
    showNebulas := true, sectors := [0, 1], scale := 1 }

/-- A sample handle list entry for the witness instances. -/
def sunHandleAlone : Obj := .mk (some solEnt) ⟨0, 0, 0⟩ 20 true 0xffff00 []

/-- The per-type size of the produced mesh as a function of the entity
distance, read off the branches of createCelestialMesh (the unknown
case is never produced; the value there is irrelevant). -/
def meshSize (t : String) (dist : ℚ) : ℚ :=
  if t = "star" then (if dist = 0 then 20 else 8 + dist / 10)
  else if t = "planet" then 4 + dist / 30
  else if t = "moon" then 2 + dist / 50
  else if t = "nebula" then 15 + dist / 20
  else 0

/-- The pick ray used in the concrete picking scenarios: origin on the
positive z axis at distance 100, aimed straight at the origin. -/
def rayO : V3 := ⟨0, 0, 100⟩

def rayD : V3 := ⟨0, 0, -1⟩

/-- A camera state sitting exactly 50 units from the origin and aimed
at it; one scroll-in step from here lands exactly on the origin. -/
noncomputable def radiusFiftyState : CameraState :=
  { camX := 50, camY := 0, camZ := 0
    dirX := -1, dirY := 0, dirZ := 0
    autoRotate := false, rotationSpeed := 1
    rotationAngle := 0, isDragging := false }

/-- A camera state whose position azimuth (on the unit sphere, at the
equator) differs from the stored rotationAngle accumulator: the camera
sits at (1, 0, 0) while the accumulator is 0, so the first auto-rotate
frame teleports it to (0, 0, 1). -/
noncomputable def driftDemoState : CameraState :=
  { camX := 1, camY := 0, camZ := 0
    dirX := -1, dirY := 0, dirZ := 0
    autoRotate := true, rotationSpeed := 0
    rotationAngle := 0, isDragging := false }

@[simp]
theorem Obj.userData_withVisible (m : Obj) (b : Bool) :
    (m.withVisible b).userData = m.userData := by
  cases m; rfl

@[simp]
theorem Obj.visible_withVisible (m : Obj) (b : Bool) :
    (m.withVisible b).visible = b := by
  cases m; rfl

@[simp]
theorem Obj.userData_withPosition (m : Obj) (p : V3) :
    (m.withPosition p).userData = m.userData := by
  cases m; rfl

@[simp]
theorem Obj.position_withPosition (m : Obj) (p : V3) :
    (m.withPosition p).position = p := by
  cases m; rfl

@[simp]
theorem Obj.userData_withUserData (m : Obj) (u : Option Entity) :
    (m.withUserData u).userData = u := by
  cases m; rfl

theorem mem_typeEnabled_iff (c : Controls) (t : String) :
    t ∈ typeEnabled c ↔ typeVisibleOf c t = true := by
  rcases c with ⟨s1, s2, s3, s4, sec, sc⟩
  by_cases h1 : t = "star"
  · subst h1
    cases s1 <;> cases s2 <;> cases s3 <;> cases s4 <;>
      simp [typeEnabled, typeVisibleOf]
  by_cases h2 : t = "planet"
  · subst h2
    cases s1 <;> cases s2 <;> cases s3 <;> cases s4 <;>
      simp [typeEnabled, typeVisibleOf]
  by_cases h3 : t = "moon"
  · subst h3
    cases s1 <;> cases s2 <;> cases s3 <;> cases s4 <;>
      simp [typeEnabled, typeVisibleOf]
  by_cases h4 : t = "nebula"
  · subst h4
    cases s1 <;> cases s2 <;> cases s3 <;> cases s4 <;>
      simp [typeEnabled, typeVisibleOf]
  cases s1 <;> cases s2 <;> cases s3 <;> cases s4 <;>
    simp [typeEnabled, typeVisibleOf, h1, h2, h3, h4]

theorem visUpdate_visible (c : Controls) (m : Obj) (e : Entity)
    (hu : m.userData = some e) :
    (visUpdate c m).visible =
      (typeVisibleOf c e.type && c.sectors.contains e.sector) := by
  unfold visUpdate
  rw [hu]
  simp

theorem visUpdate_userData (c : Controls) (m : Obj) :
    (visUpdate c m).userData = m.userData := by
  unfold visUpdate
  cases h : m.userData <;> simp [h]

/-- C1: after updateVisibility runs under any filter state, a handle
carrying entity e is render-visible exactly when the type of e is in
the enabled-type set and the sector of e is in the enabled-sector set. -/
theorem c1_visibility_iff_type_and_sector (c : Controls) (meshes : List Obj)
    (m : Obj) (hm : m ∈ updateVisibility c meshes) (e : Entity)
    (hu : m.userData = some e) :
    m.visible = true ↔ (e.type ∈ typeEnabled c ∧ e.sector ∈ c.sectors) := by
  rcases List.mem_map.mp hm with ⟨m0, _, rfl⟩
  have hu0 : m0.userData = some e := by
    rw [← visUpdate_userData c m0]; exact hu
  rw [visUpdate_visible c m0 e hu0]
  rw [Bool.and_eq_true]
  rw [mem_typeEnabled_iff]
  constructor
  · rintro ⟨ht, hs⟩
    exact ⟨ht, by simpa [List.contains, List.elem_iff] using hs⟩
  · rintro ⟨ht, hs⟩
    exact ⟨ht, by simpa [List.contains, List.elem_iff] using hs⟩

/-- Witness for C1 at a concrete filter state and handle: the Sol
handle is visible under starControls because star is an enabled type
and sector 0 is enabled. -/
theorem c1_witness : (visUpdate starControls sunHandleAlone).visible = true :=
  (c1_visibility_iff_type_and_sector starControls [sunHandleAlone]
      (visUpdate starControls sunHandleAlone)
      (by simp [updateVisibility]) solEnt rfl).mpr
    ⟨by decide, by decide⟩

theorem scaleOne_userData (s : ℚ) (m : Obj) :
    (scaleOne s m).userData = m.userData := by
  unfold scaleOne
  cases h : m.userData <;> simp [h]

theorem scaleOne_scaleOne (s t : ℚ) (m : Obj) :
    scaleOne s (scaleOne t m) = scaleOne s m := by
  unfold scaleOne
  cases m with
  | mk u p r v c ch => cases u <;> rfl

theorem applyScale_applyScale (s t : ℚ) (meshes : List Obj) :
    applyScale s (applyScale t meshes) = applyScale s meshes := by
  unfold applyScale
  rw [List.map_map]
  exact List.map_congr_left fun m _ => scaleOne_scaleOne s t m

/-- C2: the scale handler always recomputes each handle position as the
stored entity coordinates times the new factor, so (a) the position
after applying factor s is exactly (x s, y s, z s); (b) applying the
same factor twice in a row changes nothing; (c) applying s after any
sequence of intermediate factors gives exactly the same positions as
applying s directly — no drift. -/
theorem c2_scale_from_original_no_drift :
    (∀ (s : ℚ) (meshes : List Obj) (m : Obj), m ∈ applyScale s meshes →
      ∀ e : Entity, m.userData = some e →
        m.position = ⟨e.x * s, e.y * s, e.z * s⟩) ∧
    (∀ (s : ℚ) (meshes : List Obj),
      applyScale s (applyScale s meshes) = applyScale s meshes) ∧
    (∀ (seq : List ℚ) (s : ℚ) (meshes : List Obj),
      applyScale s (seq.foldl (fun ms t => applyScale t ms) meshes) =
        applyScale s meshes) := by
  refine ⟨?_, ?_, ?_⟩
  · intro s meshes m hm e hu
    rcases List.mem_map.mp hm with ⟨m0, _, rfl⟩
    have hu0 : m0.userData = some e := by
      rw [← scaleOne_userData s m0]; exact hu
    unfold scaleOne
    rw [hu0]
    simp
  · intro s meshes
    exact applyScale_applyScale s s meshes
  · intro seq
    induction seq with
    | nil => intro s meshes; rfl
    | cons t rest ih =>
      intro s meshes
      have : (t :: rest).foldl (fun ms u => applyScale u ms) meshes =
          rest.foldl (fun ms u => applyScale u ms) (applyScale t meshes) := rfl
      rw [this, ih s (applyScale t meshes), applyScale_applyScale]

/-- Witness for C2: scaling the Earth handle by 2 puts it at
(300, 0, 0), instantiating the position formula of the theorem, and the
no-drift equation holds on a concrete intermediate sequence. -/
theorem c2_witness :
    (scaleOne 2 (Obj.mk (some earthEnt) ⟨150, 0, 0⟩ 4 true 0x4488ff [])).position
      = ⟨300, 0, 0⟩ := by
  have h := c2_scale_from_original_no_drift.1 2
    [Obj.mk (some earthEnt) ⟨150, 0, 0⟩ 4 true 0x4488ff []]
    (scaleOne 2 (Obj.mk (some earthEnt) ⟨150, 0, 0⟩ 4 true 0x4488ff []))
    (by simp [applyScale]) earthEnt rfl
  rw [h]
  show (⟨(150 : ℚ) * 2, 0 * 2, 0 * 2⟩ : V3) = ⟨300, 0, 0⟩
  norm_num

/-- C3 counterexample: the mesh for a star at distance 0 has size 20,
not the fixed per-type constant 14 that the claim states, and a star at
distance 10 has size 9 — the size varies with distance even within one
type, so it is not a per-type constant at all. -/
theorem c3_counterexample :
    (createCelestialMesh solEnt).map Obj.radius = some 20 ∧
    (createCelestialMesh vegaEnt).map Obj.radius = some 9 ∧
    ¬ ((createCelestialMesh solEnt).map Obj.radius = some 14) := by
  refine ⟨by decide, ?_, by decide⟩
  show (createCelestialMesh vegaEnt).map Obj.radius = some 9
  norm_num [createCelestialMesh, vegaEnt, Obj.radius]

/-- C3 amended: every produced visual sits at the stored entity
coordinates, and its size is the per-type function of the entity
distance read off the source (star: 20 at distance 0 else
8 + distance / 10; planet: 4 + distance / 30; moon: 2 + distance / 50;
nebula: 15 + distance / 20); unknown types produce nothing. -/
theorem c3_position_and_size (e : Entity) (m : Obj)
    (h : createCelestialMesh e = some m) :
    m.position = ⟨e.x, e.y, e.z⟩ ∧ m.radius = meshSize e.type e.distance := by
  simp only [createCelestialMesh] at h
  simp only [meshSize]
  split_ifs at h ⊢
  all_goals obtain rfl := Option.some.inj h
  all_goals exact ⟨rfl, rfl⟩

/-- Witness for C3 amended, at the Vega star: position (100, 50, 200)
and size 9 = 8 + 10 / 10. -/
theorem c3_witness :
    (Obj.mk (none : Option Entity) ⟨100, 50, 200⟩ 9 true 0xff6600 []).position
        = ⟨vegaEnt.x, vegaEnt.y, vegaEnt.z⟩ ∧
    (Obj.mk (none : Option Entity) ⟨100, 50, 200⟩ 9 true 0xff6600 []).radius
        = meshSize vegaEnt.type vegaEnt.distance :=
  c3_position_and_size vegaEnt
    (Obj.mk (none : Option Entity) ⟨100, 50, 200⟩ 9 true 0xff6600 [])
    (by norm_num [createCelestialMesh, vegaEnt, Obj.mk.injEq, V3.mk.injEq])

/-- C9: an entity whose type is outside the four known kinds yields no
mesh at all, and resolving a catalog extended with it produces exactly
the handle list of the catalog without it — a silent no-op, no error. -/
theorem c9_unknown_type_silent_noop (e : Entity) (h : ¬ knownType e.type) :
    createCelestialMesh e = none ∧
    ∀ catalog : List Entity,
      createCelestialObjects (catalog ++ [e]) = createCelestialObjects catalog := by
  have h1 : e.type ≠ "star" := by
    intro hx; exact h (by unfold knownType; rw [hx]; decide)
  have h2 : e.type ≠ "planet" := by
    intro hx; exact h (by unfold knownType; rw [hx]; decide)
  have h3 : e.type ≠ "moon" := by
    intro hx; exact h (by unfold knownType; rw [hx]; decide)
  have h4 : e.type ≠ "nebula" := by
    intro hx; exact h (by unfold knownType; rw [hx]; decide)
  have hnone : createCelestialMesh e = none := by
    unfold createCelestialMesh
    rw [if_neg h1, if_neg h2, if_neg h3, if_neg h4]
  refine ⟨hnone, fun catalog => ?_⟩
  unfold createCelestialObjects
  rw [List.filterMap_append]
  simp [hnone]

/-- Witness for C9 at the asteroid record: no mesh, and the two-entry
catalog resolves to the same handles as the one-entry catalog. -/
theorem c9_witness :
    createCelestialMesh asteroidEnt = none ∧
    createCelestialObjects ([solEnt] ++ [asteroidEnt]) =
      createCelestialObjects [solEnt] :=
  ⟨(c9_unknown_type_silent_noop asteroidEnt (by decide)).1,
   (c9_unknown_type_silent_noop asteroidEnt (by decide)).2 [solEnt]⟩

theorem knownType_mesh_isSome (e : Entity) (h : knownType e.type) :
    (createCelestialMesh e).isSome := by
  unfold knownType at h
  unfold createCelestialMesh
  simp only [List.mem_cons, List.mem_singleton, List.not_mem_nil, or_false] at h
  rcases h with h | h | h | h <;> rw [h] <;> by_cases hd : e.distance = 0 <;>
    simp [hd]

theorem mem_createCelestialObjects (catalog : List Entity) (m : Obj)
    (hm : m ∈ createCelestialObjects catalog) :
    ∃ e, e ∈ catalog ∧ m.userData = some e := by
  unfold createCelestialObjects at hm
  rcases List.mem_filterMap.mp hm with ⟨e, he, hf⟩
  refine ⟨e, he, ?_⟩
  cases hc : createCelestialMesh e with
  | none => rw [hc] at hf; exact Option.noConfusion hf
  | some mh =>
    rw [hc] at hf
    simp only [Option.map_some', Option.some.injEq] at hf
    rw [← hf]
    simp

theorem countP_handles_notMem (catalog : List Entity) (e : Entity)
    (he : e ∉ catalog) :
    (createCelestialObjects catalog).countP
      (fun m => decide (m.userData = some e)) = 0 := by
  induction catalog with
  | nil => rfl
  | cons a rest ih =>
    have hane : a ≠ e := fun hx => he (hx ▸ List.mem_cons_self a rest)
    have hrest : e ∉ rest := fun hx => he (List.mem_cons_of_mem a hx)
    unfold createCelestialObjects at ih ⊢
    rw [List.filterMap_cons]
    cases hc : createCelestialMesh a with
    | none => simpa using ih hrest
    | some mh =>
      simp only [Option.map_some']
      rw [List.countP_cons]
      have hud : (mh.withUserData (some a)).userData = some a := by simp
      have : decide ((mh.withUserData (some a)).userData = some e) = false := by
        rw [hud]; simp [hane]
      rw [this]
      simpa using ih hrest

theorem countP_handles_mem (catalog : List Entity) (e : Entity)
    (he : e ∈ catalog) (hnd : catalog.Nodup)
    (hkn : ∀ a ∈ catalog, knownType a.type) :
    (createCelestialObjects catalog).countP
      (fun m => decide (m.userData = some e)) = 1 := by
  induction catalog with
  | nil => exact absurd he (List.not_mem_nil e)
  | cons a rest ih =>
    have hnd2 := List.nodup_cons.mp hnd
    unfold createCelestialObjects at ih ⊢
    rw [List.filterMap_cons]
    rcases List.mem_cons.mp he with rfl | hmemrest
    · have hsome := knownType_mesh_isSome e (hkn e (List.mem_cons_self e rest))
      cases hc : createCelestialMesh e with
      | none => rw [hc] at hsome; simp at hsome
      | some mh =>
        simp only [Option.map_some']
        rw [List.countP_cons]
        have : decide ((mh.withUserData (some e)).userData = some e) = true := by
          simp
        rw [this]
        have hz := countP_handles_notMem rest e hnd2.1
        unfold createCelestialObjects at hz
        rw [hz]
        simp
    · have hane : a ≠ e := fun hx => hnd2.1 (hx ▸ hmemrest)
      have hone := ih hmemrest hnd2.2
        (fun b hb => hkn b (List.mem_cons_of_mem a hb))
      cases hc : createCelestialMesh a with
      | none => simpa using hone
      | some mh =>
        simp only [Option.map_some']
        rw [List.countP_cons]
        have : decide ((mh.withUserData (some a)).userData = some e) = false := by
          simp [hane]
        rw [this]
        simpa using hone

/-- C6: for a catalog of well-formed records (types among the four known
kinds, records pairwise distinct as JS object references are), the
resolved scene holds exactly one handle whose back-reference is each
given entity, and every handle back-references exactly one catalog
entity. -/
theorem c6_one_handle_per_entity (catalog : List Entity)
    (hkn : ∀ a ∈ catalog, knownType a.type) (hnd : catalog.Nodup) :
    (∀ e ∈ catalog,
      (createCelestialObjects catalog).countP
        (fun m => decide (m.userData = some e)) = 1) ∧
    (∀ m ∈ createCelestialObjects catalog,
      ∃ e, e ∈ catalog ∧ m.userData = some e) :=
  ⟨fun e he => countP_handles_mem catalog e he hnd hkn,
   fun m hm => mem_createCelestialObjects catalog m hm⟩

/-- Witness for C6 on the two-entry Sol/Earth catalog: the Sol entity
has exactly one handle. -/
theorem c6_witness :
    (createCelestialObjects [solEnt, earthEnt]).countP
      (fun m => decide (m.userData = some solEnt)) = 1 :=
  (c6_one_handle_per_entity [solEnt, earthEnt] (by decide) (by decide)).1
    solEnt (by decide)

theorem raySphereHit_axis (oz R : ℚ) (hR : 0 ≤ R) (hle : R ≤ oz) :
    raySphereHit ⟨0, 0, oz⟩ ⟨0, 0, -1⟩ ⟨0, 0, 0⟩ R =
      some ((oz : ℝ) - (R : ℝ)) := by
  unfold raySphereHit
  simp only [V3.sub, V3.dot]
  norm_num
  have hR2 : (0 : ℝ) ≤ (R : ℝ) := by exact_mod_cast hR
  have hle2 : (R : ℝ) ≤ (oz : ℝ) := by exact_mod_cast hle
  have hsq : Real.sqrt ((R : ℝ) * (R : ℝ)) = (R : ℝ) := by
    rw [show ((R : ℝ) * (R : ℝ)) = (R : ℝ) ^ 2 by ring, Real.sqrt_sq hR2]
  refine ⟨mul_self_nonneg R,
    by nlinarith [Real.sqrt_nonneg ((R : ℝ) * (R : ℝ))], ?_⟩
  rw [hsq, if_neg (not_lt.mpr hle2)]

theorem sol_scene_handles : createCelestialObjects [solEnt] = [sunNode] := by
  simp only [createCelestialObjects, solEnt, List.filterMap_cons, List.filterMap_nil]
  norm_num [createCelestialMesh, sunNode, glowNode, Obj.withUserData]
  rfl

theorem sol_scene_intersections :
    intersectObjects rayO rayD (createCelestialObjects [solEnt]) =
      [((60 : ℝ), glowNode), ((80 : ℝ), sunNode)] := by
  rw [sol_scene_handles]
  have hadd : V3.add ⟨0, 0, 0⟩ ⟨0, 0, 0⟩ = (⟨0, 0, 0⟩ : V3) := by
    simp [V3.add]
  have h20 : raySphereHit ⟨0, 0, 100⟩ ⟨0, 0, -1⟩ ⟨0, 0, 0⟩ 20 = some 80 := by
    rw [raySphereHit_axis 100 20 (by norm_num) (by norm_num)]
    norm_num
  have h40 : raySphereHit ⟨0, 0, 100⟩ ⟨0, 0, -1⟩ ⟨0, 0, 0⟩ 40 = some 60 := by
    rw [raySphereHit_axis 100 40 (by norm_num) (by norm_num)]
    norm_num
  simp only [intersectObjects, rayO, rayD, sunNode, glowNode, intersectWalkList,
    intersectWalk, hadd, h20, h40, List.append_nil, List.nil_append,
    List.cons_append, sortByDist, List.foldr, insertByDist]
  norm_num

/-- C4, the code at the failing input: for the Sol star the scene holds
a two-part visual (core mesh plus larger glow child). A ray through its
center hits the glow descendant first (both parts are in the
intersection set, so descendants are indeed collected), but
onMouseClick reads userData directly off that nearest sub-part, which
carries no entity reference, instead of climbing to the Sol root — the
pick resolves to an empty record, not to the Sol entity. -/
theorem c4_pick_stops_at_subpart :
    glowNode ∈ sunNode.children ∧
    intersectObjects rayO rayD (createCelestialObjects [solEnt]) =
      [((60 : ℝ), glowNode), ((80 : ℝ), sunNode)] ∧
    glowNode.userData = none ∧
    sunNode.userData = some solEnt ∧
    onMouseClick rayO rayD (createCelestialObjects [solEnt]) = some none := by
  refine ⟨by simp [sunNode, Obj.children], sol_scene_intersections, rfl, rfl, ?_⟩
  unfold onMouseClick
  rw [sol_scene_intersections]
  rfl

theorem mars_scene_handles :
    updateVisibility noPlanetControls (createCelestialObjects [marsEnt]) =
      [hiddenMarsNode] := by
  simp only [createCelestialObjects, marsEnt, List.filterMap_cons, List.filterMap_nil]
  norm_num [createCelestialMesh, updateVisibility, visUpdate, typeVisibleOf,
    noPlanetControls, hiddenMarsNode, Obj.withUserData, Obj.userData,
    Obj.withVisible, show ¬("planet" : String) = "star" from by decide]
  rfl

theorem mars_scene_intersections :
    intersectObjects rayO rayD
      (updateVisibility noPlanetControls (createCelestialObjects [marsEnt])) =
      [((96 : ℝ), hiddenMarsNode)] := by
  rw [mars_scene_handles]
  have hadd : V3.add ⟨0, 0, 0⟩ ⟨0, 0, 0⟩ = (⟨0, 0, 0⟩ : V3) := by
    simp [V3.add]
  have h4 : raySphereHit ⟨0, 0, 100⟩ ⟨0, 0, -1⟩ ⟨0, 0, 0⟩ 4 = some 96 := by
    rw [raySphereHit_axis 100 4 (by norm_num) (by norm_num)]
    norm_num
  simp only [intersectObjects, rayO, rayD, hiddenMarsNode, intersectWalkList,
    intersectWalk, hadd, h4, List.append_nil, List.nil_append,
    sortByDist, List.foldr, insertByDist]

/-- C5 counterexample: after the visibility filter hides all planets,
the Mars handle has its render-visibility flag false, yet it is still a
member of the picker intersection set (the ray-sphere walk never
consults the flag). -/
theorem c5_counterexample :
    hiddenMarsNode.visible = false ∧
    intersectObjects rayO rayD
      (updateVisibility noPlanetControls (createCelestialObjects [marsEnt])) =
      [((96 : ℝ), hiddenMarsNode)] :=
  ⟨rfl, mars_scene_intersections⟩

/-- C5 amended: hidden handles stay in the intersection set, and a pick
performed after the filter returns the entity of the hidden handle. -/
theorem c5_pick_returns_hidden_entity :
    onMouseClick rayO rayD
      (updateVisibility noPlanetControls (createCelestialObjects [marsEnt])) =
      some (some marsEnt) ∧
    hiddenMarsNode.userData = some marsEnt ∧
    hiddenMarsNode.visible = false := by
  refine ⟨?_, rfl, rfl⟩
  unfold onMouseClick
  rw [mars_scene_intersections]
  rfl

/-- C7: pointer-down always switches auto-rotation off and marks the
drag in progress, and the animate step leaves the whole camera state
(rotation angle included) untouched on any frame during which a drag is
in progress — the auto-rotate update and the drag update can never both
apply, since the frame guard requires the drag flag to be clear. -/
theorem c7_drag_cancels_autorotate :
    (∀ s : CameraState,
      (applyEvent s .mousedown).autoRotate = false ∧
      (applyEvent s .mousedown).isDragging = true) ∧
    (∀ s : CameraState, s.isDragging = true → applyEvent s .frame = s) := by
  constructor
  · intro s
    exact ⟨rfl, rfl⟩
  · intro s h
    unfold applyEvent
    rw [h]
    simp

/-- Witness for C7: after a pointer-down on the initial state the flags
are set, and a frame during that drag changes nothing. -/
theorem c7_witness :
    (applyEvent initState .mousedown).autoRotate = false ∧
    applyEvent (applyEvent initState .mousedown) .frame =
      applyEvent initState .mousedown :=
  ⟨(c7_drag_cancels_autorotate.1 initState).1,
   c7_drag_cancels_autorotate.2 (applyEvent initState .mousedown) rfl⟩

/-- C10: the auto-rotation azimuth is the separate rotationAngle
accumulator. (a) A drag update never changes the accumulator. (b) The
camera position an auto-rotate frame produces depends only on the
squared radius, the camera height, the accumulator and the speed — not
on the azimuth the camera currently has. (c) Concretely, a camera
parked at (1, 0, 0) (azimuth 90 degrees) with accumulator 0 and speed 0
is teleported by the first auto-rotate frame to (0, 0, 1) (azimuth 0):
resuming auto-rotation jumps discontinuously instead of continuing from
the dragged azimuth. -/
theorem c10_rotation_accumulator_ignores_drag :
    (∀ (s : CameraState) (dx dy : ℝ),
      (applyEvent s (.mousemove dx dy)).rotationAngle = s.rotationAngle) ∧
    (∀ s t : CameraState, s.autoRotate = true → s.isDragging = false →
      t.autoRotate = true → t.isDragging = false →
      normSq s = normSq t → s.camY = t.camY →
      s.rotationAngle = t.rotationAngle → s.rotationSpeed = t.rotationSpeed →
      (applyEvent s .frame).camX = (applyEvent t .frame).camX ∧
      (applyEvent s .frame).camZ = (applyEvent t .frame).camZ) ∧
    ((applyEvent driftDemoState .frame).camX = 0 ∧
     (applyEvent driftDemoState .frame).camZ = 1 ∧
     driftDemoState.camX = 1 ∧ driftDemoState.camZ = 0) := by
  refine ⟨?_, ?_, ?_, ?_, rfl, rfl⟩
  · intro s dx dy
    unfold applyEvent
    by_cases h : s.isDragging <;> simp [h, lookAtOrigin]
  · intro s t hs1 hs2 ht1 ht2 hn hy ha hv
    unfold applyEvent
    rw [hs1, hs2, ht1, ht2]
    simp only [Bool.and_self, Bool.not_false, if_pos]
    unfold lookAtOrigin radius
    rw [hn, hy, ha, hv]
    exact ⟨rfl, rfl⟩
  · show (applyEvent driftDemoState .frame).camX = 0
    unfold applyEvent driftDemoState
    norm_num [radius, normSq, lookAtOrigin, Real.sqrt_one, Real.arccos_zero,
      Real.sin_pi_div_two]
  · show (applyEvent driftDemoState .frame).camZ = 1
    unfold applyEvent driftDemoState
    norm_num [radius, normSq, lookAtOrigin, Real.sqrt_one, Real.arccos_zero,
      Real.sin_pi_div_two]

/-- Witness for C10: the accumulator preservation instantiated on the
initial state, and the frame-position dependence applied to the drift
demo state against itself. -/
theorem c10_witness :
    (applyEvent initState (.mousemove 3 4)).rotationAngle =
      initState.rotationAngle ∧
    (applyEvent driftDemoState .frame).camX =
      (applyEvent driftDemoState .frame).camX :=
  ⟨c10_rotation_accumulator_ignores_drag.1 initState 3 4,
   (c10_rotation_accumulator_ignores_drag.2.1 driftDemoState driftDemoState
      rfl rfl rfl rfl rfl rfl rfl rfl).1⟩

theorem normSq_nonneg (s : CameraState) : 0 ≤ normSq s := by
  unfold normSq
  positivity

theorem radius_sq (s : CameraState) : radius s ^ 2 = normSq s :=
  Real.sq_sqrt (normSq_nonneg s)

theorem r0_sq : r0 ^ 2 = 1640000 := Real.sq_sqrt (by norm_num)

theorem r0_shift_ne_zero (k : ℤ) : r0 + 50 * (k : ℝ) ≠ 0 := by
  intro h
  have hsq : r0 ^ 2 = 1640000 := r0_sq
  have h2 : r0 = -(50 * (k : ℝ)) := by linarith
  have h3 : 2500 * ((k : ℝ)) ^ 2 = 1640000 := by
    have : (-(50 * (k : ℝ))) ^ 2 = 1640000 := by rw [← h2]; exact hsq
    nlinarith [this]
  have hk : ((k : ℝ)) ^ 2 = 656 := by linarith
  have hk2 : (k ^ 2 : ℤ) = 656 := by exact_mod_cast hk
  have hn : (k.natAbs : ℤ) ^ 2 = 656 := by rw [Int.natAbs_sq]; exact hk2
  have hn2 : k.natAbs ^ 2 = 656 := by exact_mod_cast hn
  rcases Nat.lt_or_ge k.natAbs 26 with hlt | hge
  · have hle : k.natAbs ≤ 25 := Nat.lt_succ_iff.mp hlt
    have : k.natAbs ^ 2 ≤ 25 ^ 2 := Nat.pow_le_pow_left hle 2
    omega
  · have : 26 ^ 2 ≤ k.natAbs ^ 2 := Nat.pow_le_pow_left hge 2
    omega

theorem radiusInv_normSq_pos (s : CameraState) (h : RadiusInv s) :
    0 < normSq s := by
  rcases h with ⟨k, hk⟩
  rw [hk]
  have := r0_shift_ne_zero k
  exact lt_of_le_of_ne (sq_nonneg _) (Ne.symm (pow_ne_zero 2 this))

theorem radiusInv_radius_pos (s : CameraState) (h : RadiusInv s) :
    0 < radius s :=
  Real.sqrt_pos.mpr (radiusInv_normSq_pos s h)

theorem radiusInv_radius_ne_zero (s : CameraState) (h : RadiusInv s) :
    radius s ≠ 0 :=
  ne_of_gt (radiusInv_radius_pos s h)

theorem radius_lookAtOrigin (s : CameraState) :
    radius (lookAtOrigin s) = radius s := rfl

theorem lookAtOrigin_camX (s : CameraState) :
    (lookAtOrigin s).camX = s.camX := rfl

theorem lookAtOrigin_camY (s : CameraState) :
    (lookAtOrigin s).camY = s.camY := rfl

theorem lookAtOrigin_camZ (s : CameraState) :
    (lookAtOrigin s).camZ = s.camZ := rfl

theorem lookAtOrigin_dirX (s : CameraState) :
    (lookAtOrigin s).dirX = -s.camX / radius s := rfl

theorem lookAtOrigin_dirY (s : CameraState) :
    (lookAtOrigin s).dirY = -s.camY / radius s := rfl

theorem lookAtOrigin_dirZ (s : CameraState) :
    (lookAtOrigin s).dirZ = -s.camZ / radius s := rfl

theorem dirInv_lookAtOrigin (s : CameraState) (h : radius s ≠ 0) :
    DirInv (lookAtOrigin s) := by
  refine ⟨1, Or.inl rfl, ?_, ?_, ?_⟩ <;>
    · simp only [radius_lookAtOrigin, lookAtOrigin_camX, lookAtOrigin_camY,
        lookAtOrigin_camZ, lookAtOrigin_dirX, lookAtOrigin_dirY,
        lookAtOrigin_dirZ]
      field_simp
      ring

theorem zoom_component_pos (n B e cam dir tcam tdir : ℝ) (hn : n ≠ 0)
    (hd : n * dir = e * -cam) (hA : n * tcam = B * cam) (htd : tdir = dir) :
    B * tdir = e * -tcam := by
  apply mul_left_cancel₀ hn
  rw [htd]
  calc n * (B * dir) = B * (n * dir) := by ring
    _ = B * (e * -cam) := by rw [hd]
    _ = e * -(B * cam) := by ring
    _ = e * -(n * tcam) := by rw [hA]
    _ = n * (e * -tcam) := by ring

theorem zoom_component_neg (n B e cam dir tcam tdir : ℝ) (hn : n ≠ 0)
    (hd : n * dir = e * -cam) (hA : n * tcam = B * cam) (htd : tdir = dir) :
    -B * tdir = -e * -tcam := by
  apply mul_left_cancel₀ hn
  rw [htd]
  calc n * (-B * dir) = -B * (n * dir) := by ring
    _ = -B * (e * -cam) := by rw [hd]
    _ = -e * -(B * cam) := by ring
    _ = -e * -(n * tcam) := by rw [hA]
    _ = n * (-e * -tcam) := by ring

theorem camInv_zoom (s t : CameraState) (sign : ℝ)
    (hsign : sign = 1 ∨ sign = -1)
    (hX : t.camX = s.camX + sign * (s.dirX * 50))
    (hY : t.camY = s.camY + sign * (s.dirY * 50))
    (hZ : t.camZ = s.camZ + sign * (s.dirZ * 50))
    (dX : t.dirX = s.dirX) (dY : t.dirY = s.dirY) (dZ : t.dirZ = s.dirZ)
    (h : CamInv s) : CamInv t := by
  obtain ⟨⟨k, hk⟩, ⟨e, he, hdX, hdY, hdZ⟩⟩ := h
  have hrne : radius s ≠ 0 := radiusInv_radius_ne_zero s ⟨k, hk⟩
  have hr2 : radius s ^ 2 = normSq s := radius_sq s
  have hn : radius s = |r0 + 50 * (k : ℝ)| := by
    rw [radius, hk, Real.sqrt_sq_eq_abs]
  have hsigma : sign * e = 1 ∨ sign * e = -1 := by
    rcases hsign with rfl | rfl <;> rcases he with rfl | rfl <;> norm_num
  -- the signed new radius along the view line
  have hAX : radius s * t.camX = (radius s - 50 * (sign * e)) * s.camX := by
    rw [hX]
    have : radius s * (s.camX + sign * (s.dirX * 50)) =
        radius s * s.camX + sign * 50 * (radius s * s.dirX) := by ring
    rw [this, hdX]
    ring
  have hAY : radius s * t.camY = (radius s - 50 * (sign * e)) * s.camY := by
    rw [hY]
    have : radius s * (s.camY + sign * (s.dirY * 50)) =
        radius s * s.camY + sign * 50 * (radius s * s.dirY) := by ring
    rw [this, hdY]
    ring
  have hAZ : radius s * t.camZ = (radius s - 50 * (sign * e)) * s.camZ := by
    rw [hZ]
    have : radius s * (s.camZ + sign * (s.dirZ * 50)) =
        radius s * s.camZ + sign * 50 * (radius s * s.dirZ) := by ring
    rw [this, hdZ]
    ring
  have hX2 : (radius s * t.camX) ^ 2 =
      ((radius s - 50 * (sign * e)) * s.camX) ^ 2 := by rw [hAX]
  have hY2 : (radius s * t.camY) ^ 2 =
      ((radius s - 50 * (sign * e)) * s.camY) ^ 2 := by rw [hAY]
  have hZ2 : (radius s * t.camZ) ^ 2 =
      ((radius s - 50 * (sign * e)) * s.camZ) ^ 2 := by rw [hAZ]
  have hBsq : radius s ^ 2 * normSq t =
      (radius s - 50 * (sign * e)) ^ 2 * normSq s := by
    unfold normSq
    unfold normSq at hr2
    linear_combination hX2 + hY2 + hZ2
  have hnst : normSq t = (radius s - 50 * (sign * e)) ^ 2 := by
    have hcancel : radius s ^ 2 * normSq t =
        radius s ^ 2 * (radius s - 50 * (sign * e)) ^ 2 := by
      rw [hBsq, ← hr2]
      ring
    exact mul_left_cancel₀ (pow_ne_zero 2 hrne) hcancel
  have hkey : ∃ kk : ℤ, (radius s - 50 * (sign * e)) ^ 2 =
      (r0 + 50 * (kk : ℝ)) ^ 2 := by
    rcases abs_cases (r0 + 50 * (k : ℝ)) with ⟨ha, _⟩ | ⟨ha, _⟩ <;>
      rcases hsigma with hs1 | hs1
    · exact ⟨k - 1, by rw [hn, ha, hs1]; push_cast; ring⟩
    · exact ⟨k + 1, by rw [hn, ha, hs1]; push_cast; ring⟩
    · exact ⟨k + 1, by rw [hn, ha, hs1]; push_cast; ring⟩
    · exact ⟨k - 1, by rw [hn, ha, hs1]; push_cast; ring⟩
  obtain ⟨kk, hkk⟩ := hkey
  have hRadInv : RadiusInv t := ⟨kk, by rw [hnst, hkk]⟩
  refine ⟨hRadInv, ?_⟩
  -- direction invariant: the new radius is the absolute value of the
  -- signed shifted radius; the sign of the direction flips with it
  have hBne : radius s - 50 * (sign * e) ≠ 0 := by
    intro hzero
    have : normSq t = 0 := by rw [hnst, hzero]; ring
    have hpos := radiusInv_normSq_pos t hRadInv
    linarith
  have hrt : radius t = |radius s - 50 * (sign * e)| := by
    rw [radius, hnst, Real.sqrt_sq_eq_abs]
  rcases abs_cases (radius s - 50 * (sign * e)) with ⟨hb, _⟩ | ⟨hb, _⟩
  · refine ⟨e, he, ?_, ?_, ?_⟩
    · rw [hrt, hb]
      exact zoom_component_pos (radius s) _ e s.camX s.dirX t.camX t.dirX
        hrne hdX hAX dX
    · rw [hrt, hb]
      exact zoom_component_pos (radius s) _ e s.camY s.dirY t.camY t.dirY
        hrne hdY hAY dY
    · rw [hrt, hb]
      exact zoom_component_pos (radius s) _ e s.camZ s.dirZ t.camZ t.dirZ
        hrne hdZ hAZ dZ
  · have hne2 : -e = 1 ∨ -e = -1 := by
      rcases he with rfl | rfl
      · exact Or.inr (by norm_num)
      · exact Or.inl (by norm_num)
    refine ⟨-e, hne2, ?_, ?_, ?_⟩
    · rw [hrt, hb]
      exact zoom_component_neg (radius s) _ e s.camX s.dirX t.camX t.dirX
        hrne hdX hAX dX
    · rw [hrt, hb]
      exact zoom_component_neg (radius s) _ e s.camY s.dirY t.camY t.dirY
        hrne hdY hAY dY
    · rw [hrt, hb]
      exact zoom_component_neg (radius s) _ e s.camZ s.dirZ t.camZ t.dirZ
        hrne hdZ hAZ dZ

theorem normSq_spherical (s t : CameraState) (a1 a2 : ℝ)
    (hX : t.camX = radius s * Real.sin a2 * Real.sin a1)
    (hY : t.camY = radius s * Real.cos a2)
    (hZ : t.camZ = radius s * Real.sin a2 * Real.cos a1) :
    normSq t = normSq s := by
  have h1 := Real.sin_sq_add_cos_sq a1
  have h2 := Real.sin_sq_add_cos_sq a2
  have hr2 := radius_sq s
  unfold normSq at hr2 ⊢
  rw [hX, hY, hZ]
  linear_combination (radius s ^ 2 * Real.sin a2 ^ 2) * h1 +
    radius s ^ 2 * h2 + hr2

theorem normSq_autorotate (s t : CameraState) (a1 : ℝ) (hpos : RadiusInv s)
    (hX : t.camX = radius s * Real.sin (Real.arccos (s.camY / radius s)) *
      Real.sin a1)
    (hY : t.camY = s.camY)
    (hZ : t.camZ = radius s * Real.sin (Real.arccos (s.camY / radius s)) *
      Real.cos a1) :
    normSq t = normSq s := by
  have hrne := radiusInv_radius_ne_zero s hpos
  have hr2 := radius_sq s
  have h1 := Real.sin_sq_add_cos_sq a1
  have hY2 : s.camY ^ 2 ≤ normSq s := by
    unfold normSq
    nlinarith [sq_nonneg s.camX, sq_nonneg s.camZ]
  have hfrac : (s.camY / radius s) ^ 2 ≤ 1 := by
    rw [div_pow, radius_sq]
    exact div_le_one_of_le₀ hY2 (normSq_nonneg s)
  have hsin : Real.sin (Real.arccos (s.camY / radius s)) ^ 2 =
      1 - (s.camY / radius s) ^ 2 := by
    rw [Real.sin_arccos]
    exact Real.sq_sqrt (by linarith)
  have hsin2 : Real.sin (Real.arccos (s.camY / radius s)) ^ 2 *
      radius s ^ 2 = normSq s - s.camY ^ 2 := by
    rw [hsin]
    have hfe : (1 - (s.camY / radius s) ^ 2) * radius s ^ 2 =
        radius s ^ 2 - s.camY ^ 2 := by
      field_simp
    rw [hfe, hr2]
  unfold normSq at hsin2 ⊢
  rw [hX, hY, hZ]
  linear_combination
    (radius s ^ 2 *
      Real.sin (Real.arccos (s.camY / radius s)) ^ 2) * h1 + hsin2

theorem camInv_lookAt_spherical (s t : CameraState) (a1 a2 : ℝ)
    (hX : t.camX = radius s * Real.sin a2 * Real.sin a1)
    (hY : t.camY = radius s * Real.cos a2)
    (hZ : t.camZ = radius s * Real.sin a2 * Real.cos a1)
    (h : CamInv s) : CamInv (lookAtOrigin t) := by
  obtain ⟨⟨k, hk⟩, _⟩ := h
  have hns : normSq t = normSq s := normSq_spherical s t a1 a2 hX hY hZ
  have hRadt : RadiusInv t := ⟨k, by rw [hns, hk]⟩
  refine ⟨⟨k, ?_⟩, dirInv_lookAtOrigin t (radiusInv_radius_ne_zero t hRadt)⟩
  rw [show normSq (lookAtOrigin t) = normSq t from rfl, hns, hk]

theorem camInv_lookAt_autorotate (s t : CameraState) (a1 : ℝ)
    (hX : t.camX = radius s * Real.sin (Real.arccos (s.camY / radius s)) *
      Real.sin a1)
    (hY : t.camY = s.camY)
    (hZ : t.camZ = radius s * Real.sin (Real.arccos (s.camY / radius s)) *
      Real.cos a1)
    (h : CamInv s) : CamInv (lookAtOrigin t) := by
  obtain ⟨⟨k, hk⟩, _⟩ := h
  have hns : normSq t = normSq s :=
    normSq_autorotate s t a1 ⟨k, hk⟩ hX hY hZ
  have hRadt : RadiusInv t := ⟨k, by rw [hns, hk]⟩
  refine ⟨⟨k, ?_⟩, dirInv_lookAtOrigin t (radiusInv_radius_ne_zero t hRadt)⟩
  rw [show normSq (lookAtOrigin t) = normSq t from rfl, hns, hk]

theorem camInv_reset_position (t : CameraState)
    (hX : t.camX = 800) (hY : t.camY = 600) (hZ : t.camZ = 800) :
    CamInv (lookAtOrigin t) := by
  have hns : normSq t = (r0 + 50 * ((0 : ℤ) : ℝ)) ^ 2 := by
    unfold normSq
    rw [hX, hY, hZ]
    norm_num [r0_sq]
  have hRadt : RadiusInv t := ⟨0, hns⟩
  refine ⟨⟨0, ?_⟩, dirInv_lookAtOrigin t (radiusInv_radius_ne_zero t hRadt)⟩
  rw [show normSq (lookAtOrigin t) = normSq t from rfl]
  exact hns

theorem camInv_applyEvent (s : CameraState) (ev : UIEvent) (h : CamInv s) :
    CamInv (applyEvent s ev) := by
  cases ev with
  | mousedown => exact h
  | mouseup => exact h
  | toggleRotation => exact h
  | setRotationSpeed v => exact h
  | mousemove dx dy =>
    simp only [applyEvent]
    by_cases hd : s.isDragging = true
    · rw [if_pos hd]
      exact camInv_lookAt_spherical s _ _ _ rfl rfl rfl h
    · rw [if_neg hd]
      exact h
  | frame =>
    simp only [applyEvent]
    by_cases hg : (s.autoRotate && !s.isDragging) = true
    · rw [if_pos hg]
      exact camInv_lookAt_autorotate s _ _ rfl rfl rfl h
    · rw [if_neg hg]
      exact h
  | wheel deltaY =>
    simp only [applyEvent]
    by_cases hw : deltaY < 0
    · rw [if_pos hw]
      refine camInv_zoom s _ 1 (Or.inl rfl) ?_ ?_ ?_ rfl rfl rfl h
      · show s.camX + s.dirX * 50 = s.camX + 1 * (s.dirX * 50)
        ring
      · show s.camY + s.dirY * 50 = s.camY + 1 * (s.dirY * 50)
        ring
      · show s.camZ + s.dirZ * 50 = s.camZ + 1 * (s.dirZ * 50)
        ring
    · rw [if_neg hw]
      refine camInv_zoom s _ (-1) (Or.inr rfl) ?_ ?_ ?_ rfl rfl rfl h
      · show s.camX - s.dirX * 50 = s.camX + -1 * (s.dirX * 50)
        ring
      · show s.camY - s.dirY * 50 = s.camY + -1 * (s.dirY * 50)
        ring
      · show s.camZ - s.dirZ * 50 = s.camZ + -1 * (s.dirZ * 50)
        ring
  | resetView =>
    exact camInv_reset_position _ rfl rfl rfl

theorem camInv_initState : CamInv initState :=
  camInv_reset_position _ rfl rfl rfl

theorem camInv_run (evs : List UIEvent) : CamInv (run evs) := by
  unfold run
  suffices hgen : ∀ s, CamInv s → CamInv (evs.foldl applyEvent s) from
    hgen initState camInv_initState
  induction evs with
  | nil => intro s hs; exact hs
  | cons ev rest ih =>
    intro s hs
    exact ih (applyEvent s ev) (camInv_applyEvent s ev hs)

/-- C8 amended: the code never clamps the zoom step, yet in exact real
arithmetic the camera distance from the origin stays strictly positive
in every state reachable from the initial one: each reachable squared
distance equals (sqrt 1640000 + 50 k)^2 for some integer k, and
sqrt 1640000 is not an integer multiple of the 50-unit zoom step, so
the drag and auto-rotate divisions by the radius never divide by
zero along any event trace. -/
theorem c8_radius_stays_positive (evs : List UIEvent) :
    0 < radius (run evs) := by
  have h := camInv_run evs
  exact radiusInv_radius_pos (run evs) h.1

/-- C8 counterexample to the claimed clamping: the zoom transition is
not clamped — applied to a camera aimed at the origin from distance
exactly 50, a single scroll-in step places the camera exactly at the
origin (radius 0), which a clamp would have to prevent. -/
theorem c8_counterexample :
    radius radiusFiftyState = 50 ∧
    radius (applyEvent radiusFiftyState (.wheel (-1))) = 0 := by
  constructor
  · unfold radius normSq radiusFiftyState
    norm_num
    rw [show (2500 : ℝ) = 50 ^ 2 by norm_num, Real.sqrt_sq (by norm_num)]
  · simp only [applyEvent]
    rw [if_pos (by norm_num : (-1 : ℝ) < 0)]
    unfold radius normSq radiusFiftyState
    norm_num
